import Mathlib

/-!
Shallow embedding of the tetris physics core (src/tetris/physics/entities.py and
src/tetris/physics/aggregates.py) and proofs about it.

Modelling conventions:
* Python lists of ints become Lean `List Int`; a grid is a `List (List Int)`.
* Python exceptions become `Except Err` results; methods that mutate state and may
  raise return a pair of the `Except` outcome and the state as it stands when the
  call ends, so that partially applied mutations stay observable.
* Loops that raise on the first offending cell and mutate nothing are modelled by
  an `any` over the row-major cell list: the raised exception carries no state, so
  only whether some cell offends is observable.  The one mutating loop
  (`update_field_state`) is modelled cell by cell to keep the interleaving.
* `random.choice` and the frame-rate configuration are threaded as explicit
  parameters (an oracle index and a `frameRate` argument).
* Python integer `%` on a positive modulus agrees with `Int.emod`; `//` on
  naturals agrees with `Nat.div`; division by zero, which raises
  `ZeroDivisionError` in Python, is modelled by an explicit zero test.
-/

namespace Tetris

/-- Exceptions of the physics package plus built-in Python errors met in it. -/
inductive Err
  | outOfBorder
  | objectIntersection
  | typeError
  | valueError
  | zeroDivision
  | figureIsToBeAppended
  | nonTermination
deriving Repr, DecidableEq

/-- Rotation / direction keys (entities.Key), declaration order NORMAL, LEFT, DOWN, RIGHT. -/
inductive Key
  | NORMAL
  | LEFT
  | DOWN
  | RIGHT
deriving Repr, DecidableEq

/-- Index of a key in the enumeration order (list(Key).index(self)). -/
def Key.toIdx : Key → Nat
  | .NORMAL => 0
  | .LEFT => 1
  | .DOWN => 2
  | .RIGHT => 3

/-- Key at a given index of the enumeration (items[nxt]); defined for 0..3. -/
def Key.ofIdx : Nat → Key
  | 0 => .NORMAL
  | 1 => .LEFT
  | 2 => .DOWN
  | _ => .RIGHT

/-- Key.next: (current + step) % len(items) with step 1 or -1; Python % on the
positive modulus 4 agrees with Int.emod. -/
def Key.next (k : Key) (ascending : Bool := true) : Key :=
  let step : Int := if ascending then 1 else -1
  Key.ofIdx (((k.toIdx : Int) + step) % 4).toNat

/-- Key.prev = next(ascending=False). -/
def Key.prev (k : Key) : Key := k.next false

/-- Grid of cells, a Python list of rows of ints. -/
abbrev Grid := List (List Int)

/-- Width of a grid: len(state[0]). -/
def Grid.wd (g : Grid) : Nat := (g.headD []).length

/-- Height of a grid: len(state). -/
def Grid.ht (g : Grid) : Nat := g.length

/-- Cell read state[r][c]; out-of-range reads give 0 (never hit on the
rectangular in-range accesses performed by the source loops). -/
def cellAt (g : Grid) (r c : Nat) : Int := (g.getD r []).getD c 0

/-- Cell write state[r][c] = v. -/
def setCell (g : Grid) (r c : Nat) (v : Int) : Grid :=
  g.set r ((g.getD r []).set c v)

/-- Field cell read state[yy][xx] with int indexes; only evaluated after the
border check has put both indexes in range. -/
def fieldAt (g : Grid) (yy xx : Int) : Int := (g.getD yy.toNat []).getD xx.toNat 0

/-- Row-major cell index list of an h x w grid, as the two nested for-loops visit it. -/
def cellsRM (h w : Nat) : List (Nat × Nat) :=
  (List.range h).flatMap (fun r => (List.range w).map (fun c => (r, c)))

/-- All rows have the width of row 0 (the shape the source loops assume when indexing). -/
def Rectangular (g : Grid) : Prop := ∀ row ∈ g, row.length = Grid.wd g

instance (g : Grid) : Decidable (Rectangular g) := by
  unfold Rectangular; infer_instance

/-- Border violation of one figure cell: the cell is opaque and its absolute
position leaves [0,width) x [0,height) (Field.validate_figure_borders body). -/
def borderViolB (field figState : Grid) (x y : Int) (rc : Nat × Nat) : Bool :=
  cellAt figState rc.1 rc.2 != 0 &&
    !(decide (0 ≤ (rc.2 : Int) + x) && decide ((rc.2 : Int) + x < (Grid.wd field : Int)) &&
      decide (0 ≤ (rc.1 : Int) + y) && decide ((rc.1 : Int) + y < (Grid.ht field : Int)))

/-- Intersection violation of one figure cell: opaque over an occupied field cell. -/
def interViolB (field figState : Grid) (x y : Int) (rc : Nat × Nat) : Bool :=
  cellAt figState rc.1 rc.2 != 0 && fieldAt field ((rc.1 : Int) + y) ((rc.2 : Int) + x) != 0

/-- Field.validate_figure_borders: raises OutOfBorderException when some opaque
cell of the figure state placed at (x, y) is out of the field borders. -/
def validate_figure_borders (field figState : Grid) (x y : Int) : Except Err Unit :=
  if (cellsRM (Grid.ht figState) (Grid.wd figState)).any (borderViolB field figState x y)
  then .error .outOfBorder else .ok ()

/-- Field.validate_figure_field_has_no_itersections: first the border check, then
an intersection scan over all cells. -/
def validate_no_itersections (field figState : Grid) (x y : Int) : Except Err Unit :=
  match validate_figure_borders field figState x y with
  | .error e => .error e
  | .ok _ =>
    if (cellsRM (Grid.ht figState) (Grid.wd figState)).any (interViolB field figState x y)
    then .error .objectIntersection else .ok ()

/-- Cell-by-cell loop of Field.update_field_state: per cell, skip transparent,
check the border, check the intersection against the current (already partially
written) field, else write the cell.  The grid returned with an error is the
field as it stands when the exception is raised. -/
def update_cells (figState : Grid) (x y : Int) :
    List (Nat × Nat) → Grid → Except Err Unit × Grid
  | [], fld => (.ok (), fld)
  | rc :: rest, fld =>
    if cellAt figState rc.1 rc.2 = 0 then update_cells figState x y rest fld
    else if borderViolB fld figState x y rc then (.error .outOfBorder, fld)
    else if interViolB fld figState x y rc then (.error .objectIntersection, fld)
    else update_cells figState x y rest
      (setCell fld ((rc.1 : Int) + y).toNat ((rc.2 : Int) + x).toNat (cellAt figState rc.1 rc.2))

/-- Field.update_field_state on a field grid: row-major interleaved check and write. -/
def update_field_state (field figState : Grid) (x y : Int) : Except Err Unit × Grid :=
  update_cells figState x y (cellsRM (Grid.ht figState) (Grid.wd figState)) field

/-- Python values reaching the grid-state validators: an int or a list. -/
inductive PyObj
  | int : Int → PyObj
  | list : List PyObj → PyObj

/-- IFigureState._validate_nested_iterable on a given (non-None) state, tracing the
source line by line: state[0] raises TypeError on an int (uncaught) and IndexError
on an empty list (caught and re-raised as the flat-iterable TypeError); then
len(state[0]) raises TypeError on an int head; an empty first row raises
ValueError; otherwise the state is a nonempty list headed by a list and passes. -/
def validate_nested_iterable : PyObj → Except Err Unit
  | .int _ => .error .typeError
  | .list [] => .error .typeError
  | .list (h :: _) =>
    match h with
    | .int _ => .error .typeError
    | .list hs => if hs.isEmpty then .error .valueError else .ok ()

/-- entities._validate_dimensions on a given (non-None) state: state[0][0] raises
IndexError (re-raised as ValueError) when state or its first row is empty, and
TypeError when state or state[0] is an int. -/
def validate_dimensions_state : PyObj → Except Err Unit
  | .int _ => .error .typeError
  | .list [] => .error .valueError
  | .list (h :: _) =>
    match h with
    | .int _ => .error .typeError
    | .list [] => .error .valueError
    | .list (_ :: _) => .ok ()

/-- Construction of a figure grid state from a supplied sequence:
IFigureState.__new__ runs _validate_nested_iterable, then FigureState.__init__
runs _validate_dimensions. -/
def figure_state_construct (s : PyObj) : Except Err Unit :=
  match validate_nested_iterable s with
  | .error e => .error e
  | .ok _ => validate_dimensions_state s

/-- Condition under which figure_state_construct succeeds: the input is a list
whose first element is a nonempty list. -/
def construct_ok_cond : PyObj → Bool
  | .list (.list (_ :: _) :: _) => true
  | _ => false

/-- Modelled from the spec: a grid sequence is rectangular when every row is a
list of the length of row 0 (spec section 3, Grid invariant: all rows have
identical non-zero length). -/
def spec_rectangular : PyObj → Bool
  | .list (.list r0 :: rest) =>
    rest.all (fun row => match row with
      | .list r => r.length == r0.length
      | .int _ => false)
  | _ => false

/-- Figure entity: a current rotation key (optional) and a dict from keys to grid
states, modelled as an insertion-ordered association list like a Python dict. -/
structure Figure where
  current_key : Option Key
  states : List (Key × Grid)
deriving Repr, DecidableEq

/-- Python dict write d[k] = v: replace in place when the key is present, else append. -/
def dictSet (d : List (Key × Grid)) (k : Key) (v : Grid) : List (Key × Grid) :=
  match d with
  | [] => [(k, v)]
  | (k1, v1) :: rest => if k1 = k then (k, v) :: rest else (k1, v1) :: dictSet rest k v

/-- Python dict read d[k] as an option. -/
def dictGet? (d : List (Key × Grid)) (k : Key) : Option Grid :=
  match d with
  | [] => none
  | (k1, v1) :: rest => if k1 = k then some v1 else dictGet? rest k

/-- Figure.get_current_state: the grid at the current key; the empty grid stands
for the unreachable unset or missing cases (the source raises there). -/
def Figure.curState (f : Figure) : Grid :=
  match f.current_key with
  | none => []
  | some k => (dictGet? f.states k).getD []

/-- Figure.change_state_by_key: set the current key (mutates the figure object). -/
def Figure.change_state_by_key (f : Figure) (k : Key) : Figure :=
  { f with current_key := some k }

/-- FigureState(width=w, height=h): [[0] * width for _ in range(height)]. -/
def FigureState_empty (w h : Nat) : Grid := List.replicate h (List.replicate w (0 : Int))

/-- FigureBuilder.reset(width, height): states = {}, current_key = Key(1), then one
empty width x height grid per key in declaration order. -/
def FigureBuilder_reset (w h : Nat) : Figure :=
  { current_key := some (Key.ofIdx 0),
    states := [Key.NORMAL, Key.LEFT, Key.DOWN, Key.RIGHT].foldl
      (fun st k => dictSet st k (FigureState_empty w h)) [] }

/-- PhysicalInteractor state: field grid, optional active figure, optional
position, accumulated lines-scored record. -/
structure Interactor where
  field : Grid
  current_figure : Option Figure
  figure_position : Option (Int × Int)
  lines_scored : List (List Nat)
deriving Repr, DecidableEq

/-- Validation run by the _figure_position setter: validate_figure_borders, then
validate_figure_field_has_no_itersections (which reruns the border check). -/
def validate_position (field figState : Grid) (x y : Int) : Except Err Unit :=
  match validate_figure_borders field figState x y with
  | .error e => .error e
  | .ok _ => validate_no_itersections field figState x y

/-- PhysicalInteractor._figure_position setter: validate against the current
figure, assign only when validation passes; raises ValueError when no figure is
set; a None assignment skips validation. -/
def set_figure_position (it : Interactor) (coords : Option (Int × Int)) :
    Except Err Unit × Interactor :=
  match coords with
  | none => (.ok (), { it with figure_position := none })
  | some (x, y) =>
    match it.current_figure with
    | none => (.error .valueError, it)
    | some fig =>
      match validate_position it.field fig.curState x y with
      | .error e => (.error e, it)
      | .ok _ => (.ok (), { it with figure_position := some (x, y) })

/-- PhysicalInteractor.place_figure: assign the figure slot first, then the
position (whose setter validates and may raise, leaving the slot assigned). -/
def place_figure (it : Interactor) (fig : Figure) (coords : Int × Int) :
    Except Err Unit × Interactor :=
  set_figure_position { it with current_figure := some fig } (some coords)

/-- PhysicalInteractor.change_figure_state: switch the figure rotation key first,
then revalidate the existing position against the new rotation grid. -/
def change_figure_state (it : Interactor) (k : Key) : Except Err Unit × Interactor :=
  match it.current_figure with
  | none => (.error .valueError, it)
  | some fig =>
    let it1 := { it with current_figure := some (fig.change_state_by_key k) }
    match it1.figure_position with
    | none => (.error .valueError, it1)
    | some (x, y) => set_figure_position it1 (some (x, y))

/-- count_lines inner function: scan rows top to bottom, collecting indexes of
full rows and run lengths of consecutive full rows; a row is full when all its
cells are truthy. -/
def countLines (field : Grid) : List Nat × List Nat :=
  let step := field.foldl
    (fun acc row =>
      let (idx, counter, rows, seqs) := acc
      if row.all (fun v => v != 0) then (idx + 1, counter + 1, rows ++ [idx], seqs)
      else (idx + 1, 0, rows, if counter ≠ 0 then seqs ++ [counter] else seqs))
    ((0 : Nat), (0 : Nat), ([] : List Nat), ([] : List Nat))
  (if step.2.1 ≠ 0 then step.2.2.2 ++ [step.2.1] else step.2.2.2, step.2.2.1)

/-- Inner loop of clear_lines for one found row index idx: for row_idx from
idx - 1 down to 0, field[row_idx + 1] = field[row_idx]. -/
def copyRowsDown (fld : Grid) : Nat → Grid
  | 0 => fld
  | r + 1 => copyRowsDown (fld.set (r + 1) (fld.getD r [])) r

/-- clear_lines inner function: per found row index, shift every row above it
down by one, then make_row_empty(0) writes [0] * width into row 0 (width cached
at Field construction; row moves keep all lengths equal to it). -/
def clearLines (width : Nat) (fld : Grid) (rowsFound : List Nat) : Grid :=
  rowsFound.foldl
    (fun f idx => (copyRowsDown f idx).set 0 (List.replicate width (0 : Int))) fld

/-- PhysicalInteractor.count_and_clear_lines: count runs of full rows, append the
run list to lines_scored when nonempty, clear and collapse, return the run list. -/
def count_and_clear_lines (it : Interactor) : List Nat × Interactor :=
  let (seqs, rows) := countLines it.field
  let scored := if seqs ≠ [] then it.lines_scored ++ [seqs] else it.lines_scored
  let fld := clearLines (Grid.wd it.field) it.field rows
  (seqs, { it with field := fld, lines_scored := scored })

/-- Domain events of services.keyboard_events.Event. -/
inductive GameEvent
  | noPending
  | moveLeft
  | moveRight
  | speedUp
  | rotateFigure
  | pauseGame
  | unpauseGame
deriving Repr, DecidableEq

/-- MovementManager state; falling_speed is stored after setter validation, the
frame counter and the one-slot event register as in the source. -/
structure Manager where
  interactor : Interactor
  falling_speed : Nat
  frames_counter : Nat
  game_is_alive : Bool
  event_register : GameEvent
  available_figures : List Figure
deriving Repr, DecidableEq

/-- MovementManager.falling_speed_in_lines_per_sec setter over Python ints:
rejects negatives with ValueError, accepts any other int including 0. -/
def falling_speed_setter (speed : Int) : Except Err Int :=
  if speed < 0 then .error .valueError else .ok speed

/-- MovementManager._move_down: place the current figure one line lower;
intersection or border failures become the FigureIsToBeAppended signal. -/
def move_down (it : Interactor) : Except Err Unit × Interactor :=
  match it.current_figure, it.figure_position with
  | some fig, some (x, y) =>
    match place_figure it fig (x, y + 1) with
    | (.ok _, it1) => (.ok (), it1)
    | (.error .outOfBorder, it1) => (.error .figureIsToBeAppended, it1)
    | (.error .objectIntersection, it1) => (.error .figureIsToBeAppended, it1)
    | (.error e, it1) => (.error e, it1)
  | _, _ => (.error .valueError, it)

/-- MovementManager._move_left: move one column left, silently swallowing border
and intersection failures. -/
def move_left (it : Interactor) : Except Err Unit × Interactor :=
  match it.current_figure, it.figure_position with
  | some fig, some (x, y) =>
    match place_figure it fig (x - 1, y) with
    | (.ok _, it1) => (.ok (), it1)
    | (.error .outOfBorder, it1) => (.ok (), it1)
    | (.error .objectIntersection, it1) => (.ok (), it1)
    | (.error e, it1) => (.error e, it1)
  | _, _ => (.error .valueError, it)

/-- MovementManager._move_right: move one column right, silently swallowing
border and intersection failures. -/
def move_right (it : Interactor) : Except Err Unit × Interactor :=
  match it.current_figure, it.figure_position with
  | some fig, some (x, y) =>
    match place_figure it fig (x + 1, y) with
    | (.ok _, it1) => (.ok (), it1)
    | (.error .outOfBorder, it1) => (.ok (), it1)
    | (.error .objectIntersection, it1) => (.ok (), it1)
    | (.error e, it1) => (.error e, it1)
  | _, _ => (.error .valueError, it)

/-- MovementManager._accelerate: while True: move down; exits only through an
exception; the fuel bound models the nonterminating loop (the source loop has no
exit of its own). -/
def accelerate (fuel : Nat) (it : Interactor) : Except Err Unit × Interactor :=
  match fuel with
  | 0 => (.error .nonTermination, it)
  | f + 1 =>
    match move_down it with
    | (.ok _, it1) => accelerate f it1
    | r => r

/-- MovementManager._rotate_figure: advance the current key, and when the
revalidation fails on a border or intersection, revert to the previous key. -/
def rotate_figure (it : Interactor) : Except Err Unit × Interactor :=
  match it.current_figure with
  | none => (.error .valueError, it)
  | some fig =>
    match fig.current_key with
    | none => (.error .valueError, it)
    | some ck =>
      match change_figure_state it ck.next with
      | (.ok _, it1) => (.ok (), it1)
      | (.error .outOfBorder, it1) => change_figure_state it1 ck
      | (.error .objectIntersection, it1) => change_figure_state it1 ck
      | (.error e, it1) => (.error e, it1)

/-- MovementManager._random_figure with the random choice threaded as an index:
random.choice picks a catalog entry and change_state_by_key(Key(2)) mutates that
shared entry in place; the updated catalog and the chosen figure are returned. -/
def random_figure (figures : List Figure) (choiceIdx : Nat) :
    Option (List Figure × Figure) :=
  match figures[choiceIdx % figures.length]? with
  | none => none
  | some f =>
    let f1 := f.change_state_by_key Key.LEFT
    some (figures.set (choiceIdx % figures.length) f1, f1)

/-- MovementManager._random_current_position with the random column threaded as
randX: a column in range(0, field_width - figure_width + 1), or (0, 0) when that
range is empty (the caught IndexError branch). -/
def random_current_position (fieldWidth figWidth randX : Nat) : Int × Int :=
  if figWidth ≤ fieldWidth then ((randX % (fieldWidth - figWidth + 1) : Nat), 0)
  else (0, 0)

/-- MovementManager._spawn_figure: pick and mutate a random figure, pick a random
top-row position, place; an intersection there ends the game; a border failure
would propagate. -/
def spawn_figure (choiceIdx randX : Nat) (m : Manager) : Except Err Unit × Manager :=
  match random_figure m.available_figures choiceIdx with
  | none => (.error .valueError, m)
  | some (figs1, f1) =>
    let m1 := { m with available_figures := figs1 }
    let pos := random_current_position (Grid.wd m1.interactor.field) (Grid.wd f1.curState) randX
    match place_figure m1.interactor f1 pos with
    | (.ok _, it1) => (.ok (), { m1 with interactor := it1 })
    | (.error .objectIntersection, it1) =>
      (.ok (), { m1 with interactor := it1, game_is_alive := false })
    | (.error e, it1) => (.error e, { m1 with interactor := it1 })

/-- The except FigureIsToBeAppended branch of tick_game: stamp the current figure
into the field, count and clear lines, spawn the next figure. -/
def lock_sequence (choiceIdx randX : Nat) (m : Manager) : Except Err Unit × Manager :=
  match m.interactor.current_figure, m.interactor.figure_position with
  | some fig, some (x, y) =>
    let r := update_field_state m.interactor.field fig.curState x y
    let m1 := { m with interactor := { m.interactor with field := r.2 } }
    match r.1 with
    | .error e => (.error e, m1)
    | .ok _ =>
      let m2 := { m1 with interactor := (count_and_clear_lines m1.interactor).2 }
      spawn_figure choiceIdx randX m2
  | _, _ => (.error .valueError, m)

/-- The event to action mapping of services.keyboard_events.ActionEventMapper,
applied to the manager: pause, unpause and the neutral event are no-ops. -/
def run_action (fuel : Nat) (m : Manager) : GameEvent → Except Err Unit × Manager
  | .noPending => (.ok (), m)
  | .moveLeft => ((move_left m.interactor).1, { m with interactor := (move_left m.interactor).2 })
  | .moveRight => ((move_right m.interactor).1, { m with interactor := (move_right m.interactor).2 })
  | .speedUp =>
    ((accelerate fuel m.interactor).1, { m with interactor := (accelerate fuel m.interactor).2 })
  | .rotateFigure =>
    ((rotate_figure m.interactor).1, { m with interactor := (rotate_figure m.interactor).2 })
  | .pauseGame => (.ok (), m)
  | .unpauseGame => (.ok (), m)

/-- MovementManager.tick_game with the frame rate, the accelerate fuel and the
random oracle threaded: bump the frame counter, pop and run the pending event,
then on the gravity cadence force a down move; FigureIsToBeAppended from either
triggers the lock sequence; the cadence computation PHYSICS_FRAME_RATE //
falling_speed raises ZeroDivisionError when the speed is 0. -/
def tick_game (frameRate fuel choiceIdx randX : Nat) (m : Manager) :
    Except Err Unit × Manager :=
  let m1 := { m with frames_counter := m.frames_counter + 1 }
  let e := m1.event_register
  let m2 := { m1 with event_register := GameEvent.noPending }
  match run_action fuel m2 e with
  | (.error .figureIsToBeAppended, m3) => lock_sequence choiceIdx randX m3
  | (.error err, m3) => (.error err, m3)
  | (.ok _, m3) =>
    if m3.falling_speed = 0 then (.error .zeroDivision, m3)
    else if m3.frames_counter = frameRate / m3.falling_speed then
      let m4 := { m3 with frames_counter := 0 }
      match move_down m4.interactor with
      | (.ok _, it1) => (.ok (), { m4 with interactor := it1 })
      | (.error .figureIsToBeAppended, it1) =>
        lock_sequence choiceIdx randX { m4 with interactor := it1 }
      | (.error e2, it1) => (.error e2, { m4 with interactor := it1 })
    else (.ok (), m3)

/-- Decidable equality on outcomes, for concrete evaluations in witnesses. -/
instance : DecidableEq (Except Err Unit) := fun a b =>
  match a, b with
  | .ok (), .ok () => isTrue rfl
  | .error e1, .error e2 =>
    if h : e1 = e2 then isTrue (by rw [h]) else isFalse (fun hc => h (by cases hc; rfl))
  | .ok _, .error _ => isFalse (fun hc => Except.noConfusion hc)
  | .error _, .ok _ => isFalse (fun hc => Except.noConfusion hc)

/-- Figure state table giving the same grid to every rotation key. -/
def allSt (g : Grid) : List (Key × Grid) :=
  [(Key.NORMAL, g), (Key.LEFT, g), (Key.DOWN, g), (Key.RIGHT, g)]

/-- Ragged, non rectangular input: [[1, 2], [3]]. -/
def fxRagged : PyObj :=
  PyObj.list [PyObj.list [PyObj.int 1, PyObj.int 2], PyObj.list [PyObj.int 3]]

/-- Interactor holding the line-clear example field [[1,1,1],[0,1,0],[1,1,1]]. -/
def fxIt2 : Interactor := ⟨[[1, 1, 1], [0, 1, 0], [1, 1, 1]], none, none, []⟩

/-- One-cell figure available under every rotation key, currently on NORMAL. -/
def fxFigA : Figure := ⟨some Key.NORMAL, allSt [[1]]⟩

/-- One-cell figure available under every rotation key, currently on LEFT. -/
def fxFigC : Figure := ⟨some Key.LEFT, allSt [[1]]⟩

/-- Figure whose LEFT rotation is two cells tall, so it cannot fit a 1 x 1 field. -/
def fxFigR : Figure :=
  ⟨some Key.NORMAL, [(Key.NORMAL, [[1]]), (Key.LEFT, [[1], [1]]), (Key.DOWN, [[1]]), (Key.RIGHT, [[1]])]⟩

/-- Interactor with a 1 x 1 empty field and fxFigR placed at the origin. -/
def fxItR : Interactor := ⟨[[0]], some fxFigR, some (0, 0), []⟩

/-- Interactor with a fully occupied 1 x 1 field and nothing placed. -/
def fxItP : Interactor := ⟨[[1]], none, none, []⟩

/-- One-cell figure used for a failing placement over the occupied field. -/
def fxFigP : Figure := ⟨some Key.NORMAL, allSt [[1]]⟩

/-- Manager with falling speed 0 and a pending hard-drop event: the accelerate
action locks the figure, so this tick never reaches the cadence division. -/
def fxMc : Manager := ⟨⟨[[0]], some fxFigC, some (0, 0), []⟩, 0, 0, true, GameEvent.speedUp, [fxFigC]⟩

/-- Manager with falling speed 0 and no pending event: the tick reaches the
cadence division and fails with ZeroDivisionError. -/
def fxMz : Manager := ⟨⟨[[0]], some fxFigC, some (0, 0), []⟩, 0, 0, true, GameEvent.noPending, [fxFigC]⟩

/-! Helper lemmas. -/

theorem getD_set_ne {α : Type} (l : List α) (a d : α) {i j : Nat} (h : i ≠ j) :
    (l.set i a).getD j d = l.getD j d := by
  simp [List.getD_eq_getElem?_getD, List.getElem?_set_ne h]

theorem getD_set_self {α : Type} (l : List α) (a d : α) : ∀ i : Nat,
    (l.set i a).getD i d = if i < l.length then a else d := by
  induction l with
  | nil => intro i; simp
  | cons x xs ih =>
    intro i
    cases i with
    | zero => simp
    | succ n =>
      have hstep : ((x :: xs).set (n + 1) a).getD (n + 1) d = (xs.set n a).getD n d := rfl
      rw [hstep, ih n]
      simp [Nat.succ_lt_succ_iff]

theorem cellAt_setCell_ne (g : Grid) (v : Int) {r c i j : Nat} (h : r ≠ i ∨ c ≠ j) :
    cellAt (setCell g r c v) i j = cellAt g i j := by
  rcases h with h | h
  · unfold cellAt setCell
    rw [getD_set_ne _ _ _ h]
  · unfold cellAt setCell
    rcases eq_or_ne r i with hri | hri
    · subst hri
      rw [getD_set_self]
      by_cases hlt : r < g.length
      · rw [if_pos hlt, getD_set_ne _ _ _ h]
      · rw [if_neg hlt, List.getD_eq_default _ _ (Nat.le_of_not_lt hlt)]
    · rw [getD_set_ne _ _ _ hri]

theorem mem_cellsRM {h w r c : Nat} : (r, c) ∈ cellsRM h w ↔ r < h ∧ c < w := by
  simp only [cellsRM, List.mem_flatMap, List.mem_map, List.mem_range, Prod.mk.injEq]
  constructor
  · rintro ⟨a, ha, b, hb, har, hbc⟩
    exact ⟨har ▸ ha, hbc ▸ hb⟩
  · rintro ⟨hr, hc⟩
    exact ⟨r, hr, c, hc, rfl, rfl⟩

theorem borderViolB_iff {field figState : Grid} {x y : Int} {rc : Nat × Nat} :
    borderViolB field figState x y rc = true ↔
      cellAt figState rc.1 rc.2 ≠ 0 ∧
      ¬(0 ≤ (rc.2 : Int) + x ∧ (rc.2 : Int) + x < (Grid.wd field : Int) ∧
        0 ≤ (rc.1 : Int) + y ∧ (rc.1 : Int) + y < (Grid.ht field : Int)) := by
  simp only [borderViolB, Bool.and_eq_true, bne_iff_ne, Bool.not_eq_true']
  constructor
  · rintro ⟨hc, hb⟩
    refine ⟨hc, ?_⟩
    intro hin
    simp only [Bool.and_eq_false_iff, decide_eq_false_iff_not] at hb
    rcases hb with ((h1 | h2) | h3) | h4
    · exact h1 hin.1
    · exact h2 hin.2.1
    · exact h3 hin.2.2.1
    · exact h4 hin.2.2.2
  · rintro ⟨hc, hb⟩
    refine ⟨hc, ?_⟩
    simp only [Bool.and_eq_false_iff, decide_eq_false_iff_not]
    by_cases h1 : 0 ≤ (rc.2 : Int) + x
    · by_cases h2 : (rc.2 : Int) + x < (Grid.wd field : Int)
      · by_cases h3 : 0 ≤ (rc.1 : Int) + y
        · right
          intro h4
          exact hb ⟨h1, h2, h3, h4⟩
        · left; right; exact h3
      · left; left; right; exact h2
    · left; left; left; exact h1

theorem borderViolB_false_bounds {fld figState : Grid} {x y : Int} {rc : Nat × Nat}
    (hcell : cellAt figState rc.1 rc.2 ≠ 0) (hb : borderViolB fld figState x y rc = false) :
    0 ≤ (rc.2 : Int) + x ∧ (rc.2 : Int) + x < (Grid.wd fld : Int) ∧
    0 ≤ (rc.1 : Int) + y ∧ (rc.1 : Int) + y < (Grid.ht fld : Int) := by
  by_contra hout
  have htrue : borderViolB fld figState x y rc = true := borderViolB_iff.mpr ⟨hcell, hout⟩
  rw [hb] at htrue
  exact Bool.noConfusion htrue

theorem update_cells_outside (figState : Grid) (x y : Int) (i j : Nat) :
    ∀ (L : List (Nat × Nat)) (fld : Grid),
      (∀ rc ∈ L, cellAt figState rc.1 rc.2 ≠ 0 →
        ¬((rc.1 : Int) + y = (i : Int) ∧ (rc.2 : Int) + x = (j : Int))) →
      cellAt (update_cells figState x y L fld).2 i j = cellAt fld i j := by
  intro L
  induction L with
  | nil => intro fld _; rfl
  | cons rc rest ih =>
    intro fld hout
    rw [update_cells]
    by_cases h0 : cellAt figState rc.1 rc.2 = 0
    · rw [if_pos h0]
      exact ih fld (fun p hp => hout p (List.mem_cons_of_mem _ hp))
    · rw [if_neg h0]
      by_cases hb : borderViolB fld figState x y rc = true
      · rw [if_pos hb]
      · rw [if_neg hb]
        by_cases hi : interViolB fld figState x y rc = true
        · rw [if_pos hi]
        · rw [if_neg hi]
          have hbf : borderViolB fld figState x y rc = false := Bool.not_eq_true _ ▸ hb
          have hbounds := borderViolB_false_bounds h0 hbf
          have hne : ((rc.1 : Int) + y).toNat ≠ i ∨ ((rc.2 : Int) + x).toNat ≠ j := by
            by_contra hc
            push_neg at hc
            exact hout rc (List.mem_cons_self _ _) h0
              ⟨by rw [← hc.1, Int.toNat_of_nonneg hbounds.2.2.1],
               by rw [← hc.2, Int.toNat_of_nonneg hbounds.1]⟩
          rw [ih _ (fun p hp => hout p (List.mem_cons_of_mem _ hp)),
            cellAt_setCell_ne _ _ hne]

theorem validate_position_cases (field s : Grid) (x y : Int) :
    validate_position field s x y = Except.ok () ∨
    validate_position field s x y = Except.error Err.outOfBorder ∨
    validate_position field s x y = Except.error Err.objectIntersection := by
  by_cases hb : (cellsRM (Grid.ht s) (Grid.wd s)).any (borderViolB field s x y) = true
  · right; left
    simp [validate_position, validate_figure_borders, hb]
  · by_cases hi : (cellsRM (Grid.ht s) (Grid.wd s)).any (interViolB field s x y) = true
    · right; right
      simp [validate_position, validate_figure_borders, validate_no_itersections, hb, hi]
    · left
      simp [validate_position, validate_figure_borders, validate_no_itersections, hb, hi]

theorem run_action_preserves_speed (fuel : Nat) (m : Manager) (e : GameEvent) :
    (run_action fuel m e).2.falling_speed = m.falling_speed := by
  cases e <;> rfl

/-! Claim theorems. -/

/-- C1 counterexample: stamping the 1 x 2 bar [[1, 1]] at x = 1 on the 1 x 2
empty field writes the first cell, then fails the border check on the second;
the error is raised but the partial write is retained, so the field observed by
callers is not the field before the call. -/
theorem update_field_state_partial_write_cex :
    (update_field_state ([[0, 0]] : Grid) [[1, 1]] 1 0).1 = Except.error Err.outOfBorder ∧
    (update_field_state ([[0, 0]] : Grid) [[1, 1]] 1 0).2 = [[0, 1]] ∧
    (update_field_state ([[0, 0]] : Grid) [[1, 1]] 1 0).2 ≠ [[0, 0]] :=
  ⟨rfl, rfl, by decide⟩

/-- C1 amended: update_field_state is not atomic in effect; when stamping fails
on a cell, the writes already made to opaque cells earlier in row-major order
are retained.  What does hold is containment: on a failing call every cell
outside the opaque footprint of the figure at coords keeps its prior value. -/
theorem update_field_state_writes_only_footprint (field figState : Grid) (x y : Int)
    (i j : Nat)
    (houtside : ∀ r, r < Grid.ht figState → ∀ c, c < Grid.wd figState →
      cellAt figState r c ≠ 0 → ¬((r : Int) + y = (i : Int) ∧ (c : Int) + x = (j : Int)))
    (e : Err) (herr : (update_field_state field figState x y).1 = Except.error e) :
    cellAt (update_field_state field figState x y).2 i j = cellAt field i j := by
  unfold update_field_state
  apply update_cells_outside
  intro rc hmem hcell
  have hrc := mem_cellsRM.mp (by exact hmem)
  exact houtside rc.1 hrc.1 rc.2 hrc.2 hcell

/-- C1 witness: the amended theorem applied to the counterexample call at the
untouched cell (0, 0). -/
theorem update_field_state_writes_only_footprint_witness :
    (∀ r, r < Grid.ht ([[1, 1]] : Grid) → ∀ c, c < Grid.wd ([[1, 1]] : Grid) →
      cellAt [[1, 1]] r c ≠ 0 → ¬((r : Int) + 0 = (0 : Int) ∧ (c : Int) + 1 = (0 : Int))) ∧
    (update_field_state ([[0, 0]] : Grid) [[1, 1]] 1 0).1 = Except.error Err.outOfBorder ∧
    cellAt (update_field_state ([[0, 0]] : Grid) [[1, 1]] 1 0).2 0 0 =
      cellAt ([[0, 0]] : Grid) 0 0 :=
  ⟨by decide, rfl,
    update_field_state_writes_only_footprint [[0, 0]] [[1, 1]] 1 0 0 0 (by decide)
      Err.outOfBorder rfl⟩

/-- C2 counterexample: on field [[1,1,1],[0,1,0],[1,1,1]] the resulting field is
not all-zero, and the value the method returns is the run list [1, 1], not
[[1, 1]]. -/
theorem count_and_clear_lines_not_all_zero_cex :
    (count_and_clear_lines fxIt2).2.field ≠ [[0, 0, 0], [0, 0, 0], [0, 0, 0]] := by
  decide

/-- C2 amended: count_and_clear_lines on [[1,1,1],[0,1,0],[1,1,1]] clears rows 0
and 2, returns the run list [1, 1] (the lines-scored record becomes [[1, 1]]),
and leaves the field [[0,0,0],[0,0,0],[0,1,0]]: the non-full middle row
collapses to the bottom, so the field is not all-zero. -/
theorem count_and_clear_lines_example_eval :
    (count_and_clear_lines fxIt2).1 = [1, 1] ∧
    (count_and_clear_lines fxIt2).2.lines_scored = [[1, 1]] ∧
    (count_and_clear_lines fxIt2).2.field = [[0, 0, 0], [0, 0, 0], [0, 1, 0]] :=
  ⟨rfl, rfl, rfl⟩

/-- C3 counterexample: the ragged, non rectangular sequence [[1, 2], [3]] is
accepted by grid-state construction, although the spec requires a shape error
for every non rectangular input. -/
theorem construct_ragged_accepted_cex :
    figure_state_construct fxRagged = Except.ok () ∧ spec_rectangular fxRagged = false :=
  ⟨rfl, rfl⟩

/-- C3 amended: grid-state construction fails exactly when the supplied value is
not a list whose first element is a nonempty list, i.e. when the sequence is
empty, flat, or has an empty first row; rectangularity of the remaining rows is
never checked, so ragged sequences are accepted. -/
theorem figure_state_construct_ok_iff :
    ∀ s : PyObj, figure_state_construct s = Except.ok () ↔ construct_ok_cond s = true := by
  intro s
  match s with
  | .int n =>
    simp [figure_state_construct, validate_nested_iterable, construct_ok_cond]
  | .list [] =>
    simp [figure_state_construct, validate_nested_iterable, construct_ok_cond]
  | .list (.int m :: t) =>
    simp [figure_state_construct, validate_nested_iterable, construct_ok_cond]
  | .list (.list [] :: t) =>
    simp [figure_state_construct, validate_nested_iterable, construct_ok_cond]
  | .list (.list (a :: as) :: t) =>
    simp [figure_state_construct, validate_nested_iterable, validate_dimensions_state,
      construct_ok_cond]

/-- C5 counterexample: after reset(width = 2, height = 3) the grid held under a
rotation key has height 3 = H, not 2 = W, so the claim fails at W = 2, H = 3. -/
theorem builder_reset_height_cex :
    ¬(∀ (k : Key) (g : Grid),
        dictGet? (FigureBuilder_reset 2 3).states k = some g → g.length = 2) := by
  intro h
  exact absurd (h Key.NORMAL [[0, 0], [0, 0], [0, 0]] rfl) (by decide)

/-- C5 amended: for positive W and H, reset gives every rotation key of the
enumeration an entry (exactly four, as many as the enum defines), each mapped to
the empty grid of height H and width W, with the first rotation key selected as
current. -/
theorem builder_reset_spec (w h : Nat) (hw : 0 < w) (hh : 0 < h) :
    (∀ k : Key, dictGet? (FigureBuilder_reset w h).states k = some (FigureState_empty w h)) ∧
    (FigureBuilder_reset w h).states.length = 4 ∧
    (FigureBuilder_reset w h).current_key = some Key.NORMAL ∧
    (FigureState_empty w h).length = h ∧
    (∀ row ∈ FigureState_empty w h, row.length = w) := by
  refine ⟨?_, ?_, rfl, by simp [FigureState_empty], ?_⟩
  · intro k
    cases k <;> rfl
  · rfl
  · intro row hrow
    rw [List.eq_of_mem_replicate hrow]
    exact List.length_replicate _ _

/-- C5 witness: the amended theorem applied at W = 2, H = 3. -/
theorem builder_reset_spec_witness :
    0 < 2 ∧ 0 < 3 ∧
    dictGet? (FigureBuilder_reset 2 3).states Key.DOWN = some (FigureState_empty 2 3) :=
  ⟨by decide, by decide, (builder_reset_spec 2 3 (by decide) (by decide)).1 Key.DOWN⟩

/-- C8: the rotation-key successor and predecessor form a wraparound cycle:
prev after next and next after prev are the identity, and four applications of
next return the starting key. -/
theorem key_cycle_spec :
    ∀ k : Key, (k.next).prev = k ∧ (k.prev).next = k ∧
      Key.next (Key.next (Key.next (Key.next k))) = k := by
  intro k
  cases k <;> exact ⟨rfl, rfl, rfl⟩

/-- C4: validate_figure_borders fails with the out-of-border error exactly when
some opaque cell of the figure grid placed at coords leaves
[0, width) x [0, height); transparent cells are never checked; and a placement
through place_figure that fails leaves the field grid unmodified. -/
theorem validate_figure_borders_spec (field figState : Grid) (x y : Int)
    (hrect : Rectangular figState) :
    (validate_figure_borders field figState x y = Except.error Err.outOfBorder ↔
      ∃ r c, r < Grid.ht figState ∧ c < Grid.wd figState ∧ cellAt figState r c ≠ 0 ∧
        ¬(0 ≤ (c : Int) + x ∧ (c : Int) + x < (Grid.wd field : Int) ∧
          0 ≤ (r : Int) + y ∧ (r : Int) + y < (Grid.ht field : Int))) ∧
    (∀ (it : Interactor) (fig : Figure) (cs : Int × Int) (e : Err),
      (place_figure it fig cs).1 = Except.error e →
      (place_figure it fig cs).2.field = it.field) := by
  constructor
  · constructor
    · intro herr
      unfold validate_figure_borders at herr
      by_cases hany : (cellsRM (Grid.ht figState) (Grid.wd figState)).any
          (borderViolB field figState x y) = true
      · obtain ⟨rc, hmem, hviol⟩ := List.any_eq_true.mp hany
        obtain ⟨r, c⟩ := rc
        have hm := mem_cellsRM.mp hmem
        have hb := borderViolB_iff.mp hviol
        exact ⟨r, c, hm.1, hm.2, hb.1, hb.2⟩
      · rw [if_neg hany] at herr
        exact absurd herr (by simp)
    · rintro ⟨r, c, hr, hc, hcell, hout⟩
      unfold validate_figure_borders
      have hviol : borderViolB field figState x y (r, c) = true :=
        borderViolB_iff.mpr ⟨hcell, hout⟩
      have hany : (cellsRM (Grid.ht figState) (Grid.wd figState)).any
          (borderViolB field figState x y) = true :=
        List.any_eq_true.mpr ⟨(r, c), mem_cellsRM.mpr ⟨hr, hc⟩, hviol⟩
      rw [if_pos hany]
  · intro it fig cs e herr
    obtain ⟨cx, cy⟩ := cs
    obtain ⟨fld, cf, fp, ls⟩ := it
    simp only [place_figure, set_figure_position] at herr ⊢
    cases hv : validate_position fld (Figure.curState fig) cx cy with
    | ok u => rfl
    | error e2 => rfl

/-- C4 witness: the iff applied at a one-cell figure one column left of a 1 x 1
field, and the field-preservation part applied at a failing placement over an
occupied field. -/
theorem validate_figure_borders_spec_witness :
    Rectangular ([[1]] : Grid) ∧
    validate_figure_borders ([[0]] : Grid) [[1]] (-1) 0 = Except.error Err.outOfBorder ∧
    (place_figure fxItP fxFigP (0, 0)).1 = Except.error Err.objectIntersection ∧
    (place_figure fxItP fxFigP (0, 0)).2.field = fxItP.field := by
  refine ⟨by decide, ?_, rfl, ?_⟩
  · exact (validate_figure_borders_spec [[0]] [[1]] (-1) 0 (by decide)).1.mpr
      ⟨0, 0, by decide, by decide, by decide, by decide⟩
  · exact (validate_figure_borders_spec [[0]] [[1]] (-1) 0 (by decide)).2
      fxItP fxFigP (0, 0) Err.objectIntersection rfl

/-- C6: with an active figure valid at its position, rotate advances to the next
rotation key; when the new rotation is invalid there (border or intersection),
the rotation key is restored to its pre-rotation value and the position is
unchanged. -/
theorem rotate_figure_revert_spec (it : Interactor) (fig : Figure) (ck : Key) (x y : Int)
    (hfig : it.current_figure = some fig) (hck : fig.current_key = some ck)
    (hpos : it.figure_position = some (x, y))
    (hvalid : validate_position it.field fig.curState x y = Except.ok ()) :
    (validate_position it.field
        (Figure.curState (fig.change_state_by_key ck.next)) x y ≠ Except.ok () →
      (rotate_figure it).1 = Except.ok () ∧
      (rotate_figure it).2.current_figure = some fig ∧
      (rotate_figure it).2.figure_position = some (x, y)) ∧
    (validate_position it.field
        (Figure.curState (fig.change_state_by_key ck.next)) x y = Except.ok () →
      (rotate_figure it).2.current_figure = some (fig.change_state_by_key ck.next) ∧
      (rotate_figure it).2.figure_position = some (x, y)) := by
  obtain ⟨fld, cf, fp, ls⟩ := it
  obtain ⟨fck, fst⟩ := fig
  simp only [Interactor.field] at hvalid ⊢
  subst hfig hpos
  simp only at hck
  subst hck
  constructor
  · intro hinv
    rcases validate_position_cases fld
        (Figure.curState (Figure.change_state_by_key ⟨some ck, fst⟩ ck.next)) x y with
      hok | herr | herr <;>
    [exact absurd hok hinv; skip; skip] <;>
    · simp only [rotate_figure, change_figure_state, set_figure_position,
        Figure.change_state_by_key] at herr ⊢
      rw [herr]
      simp only [Figure.curState] at hvalid ⊢
      rw [hvalid]
      exact ⟨rfl, rfl, rfl⟩
  · intro hok
    simp only [rotate_figure, change_figure_state, set_figure_position,
      Figure.change_state_by_key] at hok ⊢
    rw [hok]
    exact ⟨rfl, rfl⟩

/-- C6 witness: rotating the one-cell figure on the 1 x 1 field fails on the two
cells tall LEFT rotation and reverts to NORMAL at the unchanged origin. -/
theorem rotate_figure_revert_witness :
    validate_position fxItR.field fxFigR.curState 0 0 = Except.ok () ∧
    validate_position fxItR.field
      (Figure.curState (fxFigR.change_state_by_key Key.NORMAL.next)) 0 0 ≠ Except.ok () ∧
    (rotate_figure fxItR).1 = Except.ok () ∧
    (rotate_figure fxItR).2.current_figure = some fxFigR ∧
    (rotate_figure fxItR).2.figure_position = some (0, 0) := by
  have h := (rotate_figure_revert_spec fxItR fxFigR Key.NORMAL 0 0 rfl rfl rfl rfl).1
    (by decide)
  exact ⟨rfl, by decide, h.1, h.2.1, h.2.2⟩

/-- C7 counterexample: spawning from a one-entry catalog mutates the catalog
entry in place (its current rotation key becomes LEFT), so the figure template
is not left unchanged and no independent copy is installed. -/
theorem random_figure_mutates_catalog_cex :
    ∃ p : List Figure × Figure, random_figure [fxFigA] 0 = some p ∧ p.1 ≠ [fxFigA] := by
  refine ⟨([fxFigA.change_state_by_key Key.LEFT], fxFigA.change_state_by_key Key.LEFT),
    rfl, ?_⟩
  decide

/-- C7 amended: spawn installs no copy: _random_figure rewrites the chosen
catalog entry in place with its current rotation key set to LEFT (Key(2)) and
hands that same mutated figure to the active-figure slot; the rotation grids of
the template are unchanged, but its current key is not. -/
theorem random_figure_alias_spec (figs : List Figure) (i : Nat) (f : Figure)
    (h : figs[i % figs.length]? = some f) :
    random_figure figs i =
      some (figs.set (i % figs.length) (f.change_state_by_key Key.LEFT),
        f.change_state_by_key Key.LEFT) ∧
    (f.change_state_by_key Key.LEFT).states = f.states ∧
    (f.change_state_by_key Key.LEFT).current_key = some Key.LEFT := by
  refine ⟨?_, rfl, rfl⟩
  unfold random_figure
  rw [h]

/-- C7 witness: the amended theorem applied to the one-entry catalog. -/
theorem random_figure_alias_witness :
    ([fxFigA][0 % ([fxFigA] : List Figure).length]? = some fxFigA) ∧
    random_figure [fxFigA] 0 =
      some ([fxFigA.change_state_by_key Key.LEFT], fxFigA.change_state_by_key Key.LEFT) :=
  ⟨rfl, (random_figure_alias_spec [fxFigA] 0 fxFigA rfl).1⟩

/-- C9 counterexample: a manager with falling speed 0 whose pending event is the
hard drop: the accelerate action raises the lock signal, the tick runs the lock
sequence and returns normally, never reaching the cadence division, so not
every tick call with speed 0 divides by zero. -/
theorem tick_game_speed_zero_lock_cex :
    fxMc.falling_speed = 0 ∧ (tick_game 60 3 0 0 fxMc).1 = Except.ok () :=
  ⟨rfl, rfl⟩

/-- C9 amended: the falling-speed setter accepts 0, and with speed 0 every tick
whose resolved event action completes normally fails with ZeroDivisionError at
the cadence computation PHYSICS_FRAME_RATE // falling_speed; a tick whose action
raises the lock signal instead runs the lock sequence without the division. -/
theorem tick_game_speed_zero_spec :
    falling_speed_setter 0 = Except.ok 0 ∧
    (∀ (frameRate fuel choiceIdx randX : Nat) (m : Manager),
      m.falling_speed = 0 →
      (run_action fuel
        { m with frames_counter := m.frames_counter + 1,
                 event_register := GameEvent.noPending } m.event_register).1 =
        Except.ok () →
      (tick_game frameRate fuel choiceIdx randX m).1 = Except.error Err.zeroDivision) := by
  refine ⟨rfl, ?_⟩
  intro fr fuel ci rx m hspeed hact
  have hm3 : (run_action fuel
      { m with frames_counter := m.frames_counter + 1,
               event_register := GameEvent.noPending } m.event_register).2.falling_speed
      = 0 := by
    rw [run_action_preserves_speed]
    exact hspeed
  simp only [tick_game]
  cases hra : run_action fuel
      { m with frames_counter := m.frames_counter + 1,
               event_register := GameEvent.noPending } m.event_register with
  | mk r m3 =>
    rw [hra] at hact hm3
    simp only at hact hm3
    subst hact
    simp only [if_pos hm3]

/-- C9 witness: the amended theorem applied to a manager with speed 0 and no
pending event. -/
theorem tick_game_speed_zero_witness :
    fxMz.falling_speed = 0 ∧
    (run_action 3 { fxMz with frames_counter := fxMz.frames_counter + 1,
                              event_register := GameEvent.noPending }
      fxMz.event_register).1 = Except.ok () ∧
    (tick_game 60 3 0 0 fxMz).1 = Except.error Err.zeroDivision :=
  ⟨rfl, rfl, tick_game_speed_zero_spec.2 60 3 0 0 fxMz rfl rfl⟩

/-- C10: place_figure is not atomic on error: when the placement fails border or
intersection validation, the stored position is unchanged but the active-figure
slot already holds the newly supplied figure. -/
theorem place_figure_partial_update_spec (it : Interactor) (fig : Figure)
    (cs : Int × Int) (e : Err) (h : (place_figure it fig cs).1 = Except.error e) :
    (place_figure it fig cs).2.figure_position = it.figure_position ∧
    (place_figure it fig cs).2.current_figure = some fig := by
  obtain ⟨cx, cy⟩ := cs
  obtain ⟨fld, cf, fp, ls⟩ := it
  simp only [place_figure, set_figure_position] at h ⊢
  cases hv : validate_position fld (Figure.curState fig) cx cy with
  | ok u =>
    rw [hv] at h
    simp at h
  | error e2 =>
    exact ⟨rfl, rfl⟩

/-- C10 witness: a placement failing with an intersection over the occupied
1 x 1 field keeps the unset position and installs the new figure in the slot. -/
theorem place_figure_partial_update_witness :
    (place_figure fxItP fxFigP (0, 0)).1 = Except.error Err.objectIntersection ∧
    (place_figure fxItP fxFigP (0, 0)).2.figure_position = fxItP.figure_position ∧
    (place_figure fxItP fxFigP (0, 0)).2.current_figure = some fxFigP := by
  have h := place_figure_partial_update_spec fxItP fxFigP (0, 0)
    Err.objectIntersection rfl
  exact ⟨rfl, h.1, h.2⟩

end Tetris
